import Mathlib

/-
Verification of the session / command pipeline of
baremetal/conductor/switch/huawei_ssh.py (class HuaweiSwitch).

Modelling conventions used throughout this development:
* Python strings are modeled as `List Char`; `chars` injects a Lean string
  literal into that representation.
* Fallible Python code is modeled with `Except PyExc`; raising an exception
  is returning `.error e`.
* The device and the coordination backend are modeled by explicit
  environments (`Conn`, `Env`) of response functions, and the externally
  visible side effects of an operation are recorded in a `List Effect`.
* tenacity's wall-clock stop conditions (stop_after_delay with
  wait_fixed / wait_random) are abstracted into the number of attempts the
  schedule allows; for the connect policy (timeout 60s, fixed 10s interval)
  that number is fixed, for the save policy (randomized 2-6s wait, 30s stop)
  it is an arbitrary parameter.
-/

/-- Characters of a string literal. Python strings are modeled as lists of characters. -/
def chars (s : String) : List Char := s.data

/-- Argument passed as the `commands` parameter of `_check_output`: the source
passes either a single command string or a list of command strings. -/
inductive CmdArg where
  | single (c : List Char)
  | batch (cs : List (List Char))
deriving DecidableEq

/-- Python exceptions appearing in huawei_ssh.py: transport errors retried by
the connect policy, tenacity's RetryError, the repository's error kinds, and
the two interpreter-level errors produced by slips in the source
(a bare `raise` with no active exception, and reading an unassigned local). -/
inductive PyExc where
  | sshException
  | eofError
  | indexError
  | lockTimeout
  | retryError
  | runtimeNoActiveException
  | unboundLocalError
  | configSwitchError (command : CmdArg) (error : List Char)
  | switchConnectionError (ip : List Char) (cause : PyExc)
deriving DecidableEq

/-- Boolean test that `needle` occurs at the start of `hay`. -/
def leadMatch : List Char → List Char → Bool
  | [], _ => true
  | _ :: _, [] => false
  | a :: as, b :: bs => a = b && leadMatch as bs

/-- Boolean test that `needle` occurs contiguously anywhere in `hay`; this is
what `re.search` does for a pattern without metacharacters, and all four
patterns of `_check_output` are plain words. -/
def isSubstring (needle : List Char) : List Char → Bool
  | [] => leadMatch needle []
  | c :: rest => leadMatch needle (c :: rest) || isSubstring needle rest

/-- A response contains at least one of the four case-sensitive error markers
scanned by `HuaweiSwitch._check_output`. -/
def hasMarker (out : List Char) : Bool :=
  isSubstring (chars "Error") out || isSubstring (chars "Wrong") out ||
    isSubstring (chars "Incomplete") out || isSubstring (chars "Unrecognized") out

/-- Embedding of `HuaweiSwitch._check_output` (huawei_ssh.py lines 162-179):
a falsy (empty) output returns None at once; otherwise the fixed patterns
Error, Wrong, Incomplete, Unrecognized are searched in order and the first
match raises `ConfigSwitchError(command=commands, error=output)`; when none
matches the output itself is returned. -/
def check_output (output : List Char) (commands : CmdArg) : Except PyExc (Option (List Char)) :=
  if output = [] then .ok none
  else if isSubstring (chars "Error") output then .error (.configSwitchError commands output)
  else if isSubstring (chars "Wrong") output then .error (.configSwitchError commands output)
  else if isSubstring (chars "Incomplete") output then .error (.configSwitchError commands output)
  else if isSubstring (chars "Unrecognized") output then .error (.configSwitchError commands output)
  else .ok (some output)

/-- One tenacity retry loop. `n` is the number of attempts the stop condition
still allows and `i` the index of the current attempt. After a failed attempt
that exhausts the schedule, `reraise = true` re-raises the last exception and
`reraise = false` raises `tenacity.RetryError`; an exception outside the
retryable set propagates immediately (tenacity retries it only when the
`retry` predicate accepts it). The degenerate schedule `n = 0` is never used
by the source, which always makes at least one attempt. -/
def retryGo {α : Type} (reraise : Bool) (retryable : PyExc → Bool)
    (attempts : Nat → Except PyExc α) : Nat → Nat → Except PyExc α
  | _, 0 => .error PyExc.retryError
  | i, n + 1 =>
    match attempts i with
    | .ok a => .ok a
    | .error e =>
      if retryable e then
        if n = 0 then (if reraise then .error e else .error PyExc.retryError)
        else retryGo reraise retryable attempts (i + 1) n
      else .error e

/-- A `@tenacity.retry` decorated call: run the attempt schedule from the
first attempt. -/
def tenacityRetry {α : Type} (reraise : Bool) (retryable : PyExc → Bool)
    (maxAttempts : Nat) (attempts : Nat → Except PyExc α) : Except PyExc α :=
  retryGo reraise retryable attempts 0 maxAttempts

/-- The connect policy's retryable set (huawei_ssh.py line 76):
`(paramiko.SSHException, EOFError, IndexError)`. -/
def retryableConn : PyExc → Bool
  | PyExc.sshException => true
  | PyExc.eofError => true
  | PyExc.indexError => true
  | _ => false

/-- tenacity's default retry predicate (used by the save policy, which sets
no `retry` option): retry on any exception. -/
def retryAlways : PyExc → Bool := fun _ => true

/-- Number of connect attempts the connect policy performs when every attempt
fails: attempts run at elapsed times 0, 10, ..., 60 seconds
(`wait_fixed(10)`), and `stop_after_delay(60)` fires at the first check with
elapsed time at least 60. -/
def connectMaxAttempts : Nat := 60 / 10 + 1

/-- A live netmiko connection, modeled by the device's response text to each
kind of exchange: the output of a configuration batch, the output of a single
command, and the output of the i-th `save_config` attempt. -/
structure Conn where
  configOut : List (List Char) → List Char
  cmdOut : List Char → List Char
  saveOut : Nat → List Char

/-- Per-operation environment: the device address, the outcome of acquiring a
slot of the distributed lock pool, and the outcome of the i-th SSH connect
attempt. -/
structure Env where
  ip : List Char
  lockResult : Except PyExc Unit
  connect : Nat → Except PyExc Conn

/-- Externally visible effects of an operation, in order: acquiring a lock
slot, opening an SSH session, sending a configuration batch, sending a single
command, running the save (persistence) step. -/
inductive Effect where
  | acquireLock
  | openSession
  | sendConfig (cmds : List (List Char))
  | sendCmd (c : List Char)
  | saveAttempt
deriving DecidableEq

/-- Embedding of `HuaweiSwitch._get_connection` (lines 69-109): connect under
the connect retry policy (reraise = true); a `tenacity.RetryError` and any
other exception escaping the retried call are both wrapped into
`SwitchConnectionError(ip=..., error=e)`. -/
def get_connection (env : Env) : Except PyExc Conn :=
  match retryGo true retryableConn env.connect 0 connectMaxAttempts with
  | .ok c => .ok c
  | .error e => .error (PyExc.switchConnectionError env.ip e)

/-- Embedding of `HuaweiSwitch.send_config_set` (lines 111-125): send the
batch, validate the output, return None; a validation error is logged and
re-raised unchanged. -/
def send_config_set (conn : Conn) (cmd_set : List (List Char)) : Except PyExc Unit :=
  match check_output (conn.configOut cmd_set) (CmdArg.batch cmd_set) with
  | .error e => .error e
  | .ok _ => .ok ()

/-- Embedding of `HuaweiSwitch.send_command` (lines 127-139): prepare the
session mode, send the command, validate the output, return None; a
validation error is logged and re-raised unchanged. The mode selection
(`session_preparation` for `dis`-prefixed commands, `config_mode` otherwise)
has no observable effect in this model. -/
def send_command (conn : Conn) (command : List Char) : Except PyExc Unit :=
  match check_output (conn.cmdOut command) (CmdArg.single command) with
  | .error e => .error e
  | .ok _ => .ok ()

/-- One attempt of the inner `_save` of `HuaweiSwitch.save_configuration`
(lines 149-158): run `save_config`, validate its output against the command
string `save`, and return the output. -/
def save_attempt (conn : Conn) (i : Nat) : Except PyExc (List Char) :=
  match check_output (conn.saveOut i) (CmdArg.single (chars "save")) with
  | .error e => .error e
  | .ok _ => .ok (conn.saveOut i)

/-- Embedding of `HuaweiSwitch.save_configuration` (lines 141-160): `_save`
retried under the save policy, `reraise: False` and no `retry` option
(so every exception is retried and exhaustion raises `tenacity.RetryError`).
`maxAttempts` is the number of attempts the randomized 2-6s wait schedule
fits into the 30s stop window. -/
def save_configuration (conn : Conn) (maxAttempts : Nat) : Except PyExc (List Char) :=
  tenacityRetry false retryAlways maxAttempts (save_attempt conn)

/-- Embedding of `HuaweiSwitch.my_send_config_set` (lines 181-192): a falsy
(empty) batch returns None at once, before the lock pool or the device is
touched; otherwise acquire a lock slot, connect, send the batch, and return
the literal string `successful`; any exception is logged and re-raised
unchanged by `raise` inside the except block. -/
def my_send_config_set (env : Env) (cmd_set : List (List Char)) :
    Except PyExc (Option (List Char)) × List Effect :=
  match cmd_set with
  | [] => (.ok none, [])
  | _ :: _ =>
    match env.lockResult with
    | .error e => (.error e, [Effect.acquireLock])
    | .ok _ =>
      match get_connection env with
      | .error e => (.error e, [Effect.acquireLock, Effect.openSession])
      | .ok conn =>
        match send_config_set conn cmd_set with
        | .error e => (.error e, [Effect.acquireLock, Effect.openSession, Effect.sendConfig cmd_set])
        | .ok _ =>
          (.ok (some (chars "successful")),
           [Effect.acquireLock, Effect.openSession, Effect.sendConfig cmd_set])

/-- Embedding of `HuaweiSwitch.my_send_command` (lines 194-206): an empty
command returns None at once, before the lock pool or the device is touched;
otherwise acquire a lock slot, connect, send the command, then always run
`save_configuration` and return ITS output. On any exception the except
block only logs, and control then reaches the bare `raise` that sits after
the except block at function level; in Python 3 a bare `raise` with no
active exception raises `RuntimeError: No active exception to re-raise`. -/
def my_send_command (env : Env) (maxAttempts : Nat) (command : List Char) :
    Except PyExc (Option (List Char)) × List Effect :=
  match command with
  | [] => (.ok none, [])
  | _ :: _ =>
    match env.lockResult with
    | .error _ => (.error PyExc.runtimeNoActiveException, [Effect.acquireLock])
    | .ok _ =>
      match get_connection env with
      | .error _ => (.error PyExc.runtimeNoActiveException, [Effect.acquireLock, Effect.openSession])
      | .ok conn =>
        match send_command conn command with
        | .error _ =>
          (.error PyExc.runtimeNoActiveException,
           [Effect.acquireLock, Effect.openSession, Effect.sendCmd command])
        | .ok _ =>
          match save_configuration conn maxAttempts with
          | .error _ =>
            (.error PyExc.runtimeNoActiveException,
             [Effect.acquireLock, Effect.openSession, Effect.sendCmd command, Effect.saveAttempt])
          | .ok out =>
            (.ok (some out),
             [Effect.acquireLock, Effect.openSession, Effect.sendCmd command, Effect.saveAttempt])

/-- Embedding of `HuaweiSwitch.save` (lines 208-215): acquire a lock slot,
connect, and run `save_configuration`; only `tenacity.RetryError` is caught
and logged, after which `return output` reads the local `output` that was
never assigned on that path, raising `UnboundLocalError`; other exceptions
propagate. -/
def save (env : Env) (maxAttempts : Nat) : Except PyExc (List Char) × List Effect :=
  match env.lockResult with
  | .error e => (.error e, [Effect.acquireLock])
  | .ok _ =>
    match get_connection env with
    | .error e => (.error e, [Effect.acquireLock, Effect.openSession])
    | .ok conn =>
      match save_configuration conn maxAttempts with
      | .ok out => (.ok out, [Effect.acquireLock, Effect.openSession, Effect.saveAttempt])
      | .error PyExc.retryError =>
        (.error PyExc.unboundLocalError, [Effect.acquireLock, Effect.openSession, Effect.saveAttempt])
      | .error e => (.error e, [Effect.acquireLock, Effect.openSession, Effect.saveAttempt])

/-- A port entry of the `set_vlan` / `unset_vlan` request payloads. -/
structure Port where
  port_name : List Char
  set_link_type : List Char
  current_link_type : List Char
  vlan_id : List (List Char)
deriving DecidableEq

/-- Python `vlan.replace("-", " to ")` for a single-character needle:
each occurrence of the hyphen is replaced by the four characters of
the string literal used by the source. -/
def pyReplaceDash : List Char → List Char
  | [] => []
  | c :: rest => (if c = '-' then chars " to " else [c]) ++ pyReplaceDash rest

/-- Loop body of `HuaweiSwitch.gen_vlan_string` (lines 217-223): when the
vlan token contains a hyphen every hyphen is replaced by ` to `, and a
trailing blank is appended. -/
def vlan_piece (vlan : List Char) : List Char :=
  (if '-' ∈ vlan then pyReplaceDash vlan else vlan) ++ [' ']

/-- Embedding of `HuaweiSwitch.gen_vlan_string` (lines 217-223): start from
the empty string and append each token's piece in input order. -/
def gen_vlan_string (vlans : List (List Char)) : List Char :=
  vlans.foldl (fun acc vlan => acc ++ vlan_piece vlan) []

/-- The `interface <name>` command prefix used throughout the source. -/
def interface_cmd (port : List Char) : List Char := chars "interface " ++ port

/-- Per-port block built by `HuaweiSwitch._unset_vlan` (lines 253-265):
a trunk port omits `undo port default vlan`, any other port includes it. -/
def unset_port_cmds (port : Port) : List (List Char) :=
  if port.current_link_type = chars "trunk" then
    [interface_cmd port.port_name, chars "undo port link-type", chars "commit", chars "q"]
  else
    [interface_cmd port.port_name, chars "undo port link-type",
     chars "undo port default vlan", chars "commit", chars "q"]

/-- The command list returned by `HuaweiSwitch._unset_vlan` (lines 253-265):
the per-port blocks concatenated in port order. -/
def unset_vlan_body (ports : List Port) : List (List Char) :=
  (ports.map unset_port_cmds).flatten

/-- The command list `HuaweiSwitch.unset_vlan` (lines 247-251) sends:
`_unset_vlan` followed by a final `q`. -/
def unset_vlan_cmds (ports : List Port) : List (List Char) :=
  unset_vlan_body ports ++ [chars "q"]

/-- Per-port block built by the loop of `HuaweiSwitch.set_vlan`
(lines 229-241); note the doubled blank of `port default vlan  %s` in the
access branch, reproduced from the source. -/
def set_port_cmds (port : Port) : List (List Char) :=
  if port.set_link_type = chars "trunk" then
    [interface_cmd port.port_name, chars "port link-type trunk",
     chars "port trunk allow-pass vlan " ++ gen_vlan_string port.vlan_id,
     chars "commit", chars "q"]
  else
    [interface_cmd port.port_name, chars "port link-type access",
     chars "port default vlan  " ++ gen_vlan_string port.vlan_id,
     chars "commit", chars "q"]

/-- The command list `HuaweiSwitch.set_vlan` (lines 225-245) sends:
the whole `_unset_vlan` output, then the per-port set blocks, then `q`. -/
def set_vlan_cmds (ports : List Port) : List (List Char) :=
  unset_vlan_body ports ++ (ports.map set_port_cmds).flatten ++ [chars "q"]

/-- One entry of the `set_limit` request payload; `bandwidth` is the value of
`int(info.bandwidth)`. -/
structure LimitInfo where
  template_name : List Char
  inbound_port : List Char
  outbound_ports : List (List Char)
  bandwidth : Int
deriving DecidableEq

/-- The outbound rate-limit command built by `HuaweiSwitch.set_limit`
(lines 275-277) and `HuaweiSwitch.init_all_config` (lines 374-376):
`cir = bandwidth * 1024`, `cbs = min(524288, cir * 2)`, rendered into
`qos lr cir %s kbps cbs %s kbytes outbound`. -/
def qos_lr_cmd (bandwidth : Int) : List Char :=
  chars "qos lr cir " ++ (toString (bandwidth * 1024)).data ++ chars " kbps cbs " ++
    (toString (min 524288 (bandwidth * 1024 * 2))).data ++ chars " kbytes outbound"

/-- Inbound half of `HuaweiSwitch.set_limit` (lines 270-273). -/
def set_limit_inbound_cmds (infos : List LimitInfo) : List (List Char) :=
  (infos.map (fun info =>
    [interface_cmd info.inbound_port, chars "qos car inbound " ++ info.template_name,
     chars "commit", chars "q"])).flatten

/-- Outbound half of `HuaweiSwitch.set_limit` (lines 274-278). -/
def set_limit_outbound_cmds (infos : List LimitInfo) : List (List Char) :=
  (infos.map (fun info =>
    (info.outbound_ports.map (fun port =>
      [interface_cmd port, qos_lr_cmd info.bandwidth, chars "commit", chars "q"])).flatten)).flatten

/-- The command list `HuaweiSwitch.set_limit` (lines 267-282) sends:
all inbound blocks, then all outbound blocks, then `q`. -/
def set_limit_cmds (infos : List LimitInfo) : List (List Char) :=
  set_limit_inbound_cmds infos ++ set_limit_outbound_cmds infos ++ [chars "q"]

/-- Per-port block of `HuaweiSwitch.init_all_config` (lines 366-380).
In the source `bandwidth` is `int(template_name.split('-')[-1])`; it is taken
here as the already-parsed integer parameter. -/
def init_port_cmds (template_name : List Char) (bandwidth : Int)
    (vlan_string : List Char) (port : List Char) : List (List Char) :=
  [interface_cmd port, chars "port link-type trunk",
   chars "port trunk allow-pass vlan " ++ vlan_string] ++
    [chars "qos car inbound " ++ template_name] ++
    [qos_lr_cmd bandwidth] ++
    [chars "undo shutdown", chars "q"]

/-- Python `s.split(sep)` for a single-character separator: splits at every
occurrence and keeps empty pieces, so the result is never the empty list. -/
def pySplitChar (sep : Char) : List Char → List (List Char)
  | [] => [[]]
  | c :: rest =>
    match pySplitChar sep rest with
    | [] => [[]]
    | g :: gs => if c = sep then [] :: g :: gs else (c :: g) :: gs

/-- Python `sep.join(pieces)`. -/
def pyJoin (sep : List Char) : List (List Char) → List Char
  | [] => []
  | [x] => x
  | x :: y :: rest => x ++ sep ++ pyJoin sep (y :: rest)

/-- Python `re.findall(r'\S+', line)`: the maximal runs of
non-whitespace characters, in order. -/
def pyTokens : List Char → List (List Char)
  | [] => []
  | c :: rest =>
    if c.isWhitespace then pyTokens rest
    else
      match rest with
      | [] => [[c]]
      | d :: _ =>
        if d.isWhitespace then [c] :: pyTokens rest
        else
          match pyTokens rest with
          | [] => [[c]]
          | g :: gs => (c :: g) :: gs

/-- Python `l[i]` for a non-negative index: the element, or IndexError. -/
def pyIndex {α : Type} (l : List α) (i : Nat) : Except PyExc α :=
  match l.get? i with
  | some a => .ok a
  | none => .error PyExc.indexError

/-- A parsed mac/port relation, the dictionary appended by
`HuaweiSwitch.get_relations`. -/
structure Relation where
  mac : List Char
  port : List Char
deriving DecidableEq

/-- The per-piece expression `i[0:2] + ":" + i[2:4]` of line 426; Python
slices truncate silently on short input. -/
def mac_group (i : List Char) : List Char :=
  i.take 2 ++ ':' :: (i.drop 2).take 2

/-- The mac reconstruction of `HuaweiSwitch.get_relations` (line 426):
`":".join(i[0:2] + ":" + i[2:4] for i in token.split("-"))`. -/
def macOfToken (tok : List Char) : List Char :=
  pyJoin [':'] ((pySplitChar '-' tok).map mac_group)

/-- The per-line work of the parsing loop of `HuaweiSwitch.get_relations`
(lines 425-427): tokenize on whitespace, index token 0 for the mac and
token 2 for the port. -/
def parseLine (line : List Char) : Except PyExc Relation :=
  match pyIndex (pyTokens line) 0 with
  | .error e => .error e
  | .ok t0 =>
    match pyIndex (pyTokens line) 2 with
    | .error e => .error e
    | .ok t2 => .ok ⟨macOfToken t0, t2⟩

/-- Python `l[7:-2]`: drop the first 7 and the last 2 elements. -/
def pySlice7m2 {α : Type} (l : List α) : List α :=
  (l.take (l.length - 2)).drop 7

/-- The parsing loop of `HuaweiSwitch.get_relations` over a list of lines:
relations are accumulated in order and the first raising line aborts the
whole loop with its exception. -/
def parse_lines : List (List Char) → Except PyExc (List Relation)
  | [] => .ok []
  | l :: rest =>
    match parseLine l with
    | .error e => .error e
    | .ok r =>
      match parse_lines rest with
      | .error e => .error e
      | .ok rs => .ok (r :: rs)

/-- What `HuaweiSwitch.get_relations` (lines 418-436) does with the text a
query returned: split on newlines, keep only `[7:-2]`, and parse each
remaining line. -/
def get_relations_parse (datas : List Char) : Except PyExc (List Relation) :=
  parse_lines (pySlice7m2 (pySplitChar '\n' datas))

/-- A hexadecimal digit character. -/
def hexDigit (c : Char) : Bool :=
  c.isDigit || ('a' ≤ c && c ≤ 'f') || ('A' ≤ c && c ≤ 'F')

/-- Case analysis of the output validation: empty output is accepted as None,
a marker-containing output raises `ConfigSwitchError` carrying the command and
the raw output, any other output is returned unchanged. -/
lemma check_output_cases (out : List Char) (cmds : CmdArg) :
    (out = [] ∧ check_output out cmds = .ok none)
    ∨ (out ≠ [] ∧ hasMarker out = true
        ∧ check_output out cmds = .error (.configSwitchError cmds out))
    ∨ (out ≠ [] ∧ hasMarker out = false ∧ check_output out cmds = .ok (some out)) := by
  unfold check_output hasMarker
  split_ifs with h0 h1 h2 h3 h4 <;> simp_all

/-- Validation of a marker-containing, non-empty output raises. -/
lemma check_output_marker_error (out : List Char) (cmds : CmdArg)
    (h1 : out ≠ []) (h2 : hasMarker out = true) :
    check_output out cmds = .error (PyExc.configSwitchError cmds out) := by
  rcases check_output_cases out cmds with ⟨a, b⟩ | ⟨a, b, c⟩ | ⟨a, b, c⟩ <;> simp_all

/-- Validation of a marker-free output succeeds. -/
lemma check_output_no_marker_ok (out : List Char) (cmds : CmdArg)
    (h : hasMarker out = false) :
    check_output out cmds = .ok (if out = [] then none else some out) := by
  rcases check_output_cases out cmds with ⟨a, b⟩ | ⟨a, b, c⟩ | ⟨a, b, c⟩ <;> simp_all

/-- When every attempt fails with a retried exception, a `reraise = false`
retry loop ends in `tenacity.RetryError`, whatever the schedule length. -/
lemma retryGo_exhaust_noreraise {α : Type} (retryable : PyExc → Bool)
    (attempts : Nat → Except PyExc α)
    (h : ∀ j, ∃ e, attempts j = .error e ∧ retryable e = true) :
    ∀ n i, retryGo false retryable attempts i n = .error PyExc.retryError := by
  intro n
  induction n with
  | zero => intro i; rfl
  | succ m ih =>
    intro i
    obtain ⟨e, he, hr⟩ := h i
    by_cases hm : m = 0
    · simp [retryGo, he, hr, hm]
    · simp [retryGo, he, hr, hm, ih (i + 1)]

/-- When every attempt fails with a retried exception, a `reraise = true`
retry loop of at least one attempt ends by re-raising one of those
exceptions. -/
lemma retryGo_exhaust_reraise {α : Type} (retryable : PyExc → Bool)
    (attempts : Nat → Except PyExc α)
    (h : ∀ j, ∃ e, attempts j = .error e ∧ retryable e = true) :
    ∀ n, 1 ≤ n → ∀ i, ∃ e, retryGo true retryable attempts i n = .error e
      ∧ retryable e = true := by
  intro n
  induction n with
  | zero => intro h1; exact absurd h1 (by omega)
  | succ m ih =>
    intro _ i
    obtain ⟨e, he, hr⟩ := h i
    by_cases hm : m = 0
    · exact ⟨e, by simp [retryGo, he, hr, hm], hr⟩
    · obtain ⟨e', he', hr'⟩ := ih (by omega) (i + 1)
      exact ⟨e', by simp [retryGo, he, hr, hm, he'], hr'⟩

/-- When the very first connect attempt succeeds, `_get_connection` yields
that connection. -/
lemma get_connection_first_ok (ip : List Char) (lr : Except PyExc Unit) (conn : Conn) :
    get_connection ⟨ip, lr, fun _ => .ok conn⟩ = .ok conn := rfl

/-- C1: the output validation raises the device-rejected error
(`ConfigSwitchError`, carrying the offending command and the raw output) if
and only if the response string is non-empty and contains at least one of the
case-sensitive markers Error, Wrong, Incomplete, Unrecognized; an empty
string or a marker-free string raises nothing. -/
theorem check_output_rejects_iff (out : List Char) (cmds : CmdArg) :
    ((∃ e, check_output out cmds = .error e) ↔ (out ≠ [] ∧ hasMarker out = true))
    ∧ (check_output out cmds = .error (PyExc.configSwitchError cmds out)
        ↔ (out ≠ [] ∧ hasMarker out = true)) := by
  rcases check_output_cases out cmds with ⟨h1, h2⟩ | ⟨h1, h2, h3⟩ | ⟨h1, h2, h3⟩ <;>
    constructor <;> simp_all

/-- C4: when the transport persistently raises a retryable error for the
whole connect window, `_get_connection` fails with `SwitchConnectionError`
carrying the device address and one of the raised transport errors as the
underlying cause, and never surfaces a raw retryable transport exception
itself. -/
theorem connect_exhaustion_connection_failure (env : Env)
    (h : ∀ j, ∃ e, env.connect j = .error e ∧ retryableConn e = true) :
    (∃ cause, get_connection env = .error (PyExc.switchConnectionError env.ip cause)
        ∧ retryableConn cause = true)
    ∧ (∀ e, retryableConn e = true → get_connection env ≠ .error e) := by
  obtain ⟨e, he, hr⟩ :=
    retryGo_exhaust_reraise retryableConn env.connect h connectMaxAttempts (by decide) 0
  constructor
  · exact ⟨e, by simp [get_connection, he], hr⟩
  · intro e' hr' hc
    rw [show get_connection env = .error (PyExc.switchConnectionError env.ip e) from by
      simp [get_connection, he]] at hc
    simp only [Except.error.injEq] at hc
    rw [← hc] at hr'
    simp [retryableConn] at hr'

/-- Witness for C4 at a transport that always raises EOFError. -/
theorem connect_exhaustion_connection_failure_witness :
    (∃ cause,
        get_connection ⟨chars "10.0.0.7", .ok (), fun _ => .error PyExc.eofError⟩
          = .error (PyExc.switchConnectionError (chars "10.0.0.7") cause)
        ∧ retryableConn cause = true)
    ∧ (∀ e, retryableConn e = true →
        get_connection ⟨chars "10.0.0.7", .ok (), fun _ => .error PyExc.eofError⟩ ≠ .error e) :=
  connect_exhaustion_connection_failure
    ⟨chars "10.0.0.7", .ok (), fun _ => .error PyExc.eofError⟩
    (fun _ => ⟨PyExc.eofError, rfl, rfl⟩)

/-- C2 (the code, at the failing input): when every save attempt's output
carries an error marker until the save policy is exhausted,
`save_configuration` raises `tenacity.RetryError` instead of returning its
last observed result, and `save` then raises `UnboundLocalError` from
`return output`, because `output` was never assigned on the caught
RetryError path. -/
theorem save_retry_exhaustion_raises (conn : Conn) (maxA : Nat) (ip : List Char)
    (h : ∀ i, conn.saveOut i ≠ [] ∧ hasMarker (conn.saveOut i) = true) :
    save_configuration conn maxA = .error PyExc.retryError
    ∧ (save ⟨ip, .ok (), fun _ => .ok conn⟩ maxA).1 = .error PyExc.unboundLocalError := by
  have hs : save_configuration conn maxA = .error PyExc.retryError := by
    unfold save_configuration tenacityRetry
    apply retryGo_exhaust_noreraise
    intro j
    exact ⟨PyExc.configSwitchError (CmdArg.single (chars "save")) (conn.saveOut j),
      by simp [save_attempt, check_output_marker_error _ _ (h j).1 (h j).2], rfl⟩
  refine ⟨hs, ?_⟩
  simp [save, get_connection_first_ok, hs]

/-- Witness for C2 at a device whose save response is always `Error 1`. -/
theorem save_retry_exhaustion_raises_witness :
    save_configuration ⟨fun _ => [], fun _ => [], fun _ => chars "Error 1"⟩ 5
        = .error PyExc.retryError
    ∧ (save ⟨chars "1.2.3.4", .ok (),
          fun _ => .ok ⟨fun _ => [], fun _ => [], fun _ => chars "Error 1"⟩⟩ 5).1
        = .error PyExc.unboundLocalError :=
  save_retry_exhaustion_raises ⟨fun _ => [], fun _ => [], fun _ => chars "Error 1"⟩ 5
    (chars "1.2.3.4")
    (fun _ => ⟨show chars "Error 1" ≠ [] by decide,
               show hasMarker (chars "Error 1") = true by decide⟩)

/-- C3 (the code, at the failing input): for every non-empty command,
including a read-only display query, `my_send_command` runs the persistence
step right after the command and returns the SAVE step's output, not the
query's own output; the effect trace records the chained save. -/
theorem my_send_command_chains_save (conn : Conn) (ip command : List Char) (maxA : Nat)
    (hc : command ≠ [])
    (h1 : hasMarker (conn.cmdOut command) = false)
    (h2 : hasMarker (conn.saveOut 0) = false) :
    my_send_command ⟨ip, .ok (), fun _ => .ok conn⟩ (maxA + 1) command
      = (.ok (some (conn.saveOut 0)),
         [Effect.acquireLock, Effect.openSession, Effect.sendCmd command,
          Effect.saveAttempt]) := by
  obtain ⟨c, cs, rfl⟩ : ∃ c cs, command = c :: cs := by
    cases command with
    | nil => exact absurd rfl hc
    | cons c cs => exact ⟨c, cs, rfl⟩
  have hsend : send_command conn (c :: cs) = .ok () := by
    simp [send_command, check_output_no_marker_ok _ _ h1]
  have ha : save_attempt conn 0 = .ok (conn.saveOut 0) := by
    simp [save_attempt, check_output_no_marker_ok _ _ h2]
  have hsave : save_configuration conn (maxA + 1) = .ok (conn.saveOut 0) := by
    simp [save_configuration, tenacityRetry, retryGo, ha]
  simp [my_send_command, get_connection_first_ok, hsend, hsave]

/-- Witness for C3: a display query whose own output differs from the save
output; the call returns the save output. -/
theorem my_send_command_chains_save_witness :
    my_send_command
        ⟨chars "1.2.3.4", .ok (),
         fun _ => .ok ⟨fun _ => [], fun _ => chars "display output", fun _ => chars "save ok"⟩⟩ 1
        (chars "display mac-address 0011-2233-4455")
      = (.ok (some (chars "save ok")),
         [Effect.acquireLock, Effect.openSession,
          Effect.sendCmd (chars "display mac-address 0011-2233-4455"), Effect.saveAttempt])
    ∧ chars "save ok" ≠ chars "display output" :=
  ⟨my_send_command_chains_save
      ⟨fun _ => [], fun _ => chars "display output", fun _ => chars "save ok"⟩
      (chars "1.2.3.4") (chars "display mac-address 0011-2233-4455") 0
      (by decide) (by decide) (by decide),
   by decide⟩

/-- C8: an empty configuration batch and an empty command both return None
immediately: no lock slot is acquired, no SSH session is opened, and nothing
is sent to the device (the effect trace is empty). -/
theorem empty_batch_no_effects (env : Env) (maxA : Nat) :
    my_send_config_set env [] = (.ok none, ([] : List Effect))
    ∧ my_send_command env maxA [] = (.ok none, ([] : List Effect)) :=
  ⟨rfl, rfl⟩

/-- Hyphen replacement distributes over concatenation. -/
lemma pyReplaceDash_append (x y : List Char) :
    pyReplaceDash (x ++ y) = pyReplaceDash x ++ pyReplaceDash y := by
  induction x with
  | nil => rfl
  | cons c rest ih => simp [pyReplaceDash, ih, List.append_assoc]

/-- Hyphen replacement leaves a hyphen-free token unchanged. -/
lemma pyReplaceDash_no_dash (v : List Char) (h : '-' ∉ v) : pyReplaceDash v = v := by
  induction v with
  | nil => rfl
  | cons c rest ih =>
    simp only [List.mem_cons, not_or] at h
    have hc : c ≠ '-' := fun e => h.1 e.symm
    simp [pyReplaceDash, hc, ih h.2]

/-- The accumulator of the `gen_vlan_string` fold is a pure prefix. -/
lemma gen_vlan_string_acc (vlans : List (List Char)) :
    ∀ acc : List Char,
      List.foldl (fun a v => a ++ vlan_piece v) acc vlans
        = acc ++ List.foldl (fun a v => a ++ vlan_piece v) [] vlans := by
  induction vlans with
  | nil => intro acc; simp
  | cons v vs ih =>
    intro acc
    simp only [List.foldl]
    rw [ih (acc ++ vlan_piece v), ih ([] ++ vlan_piece v)]
    simp [List.append_assoc]

/-- C6: the VLAN command segment replaces a hyphenated range `A-B` by the
literal `A to B`, keeps a singleton unchanged, and concatenates the
segments space-separated (each segment followed by one blank) in input
order. -/
theorem gen_vlan_string_ranges (a b v : List Char) (xs ys : List (List Char)) :
    (('-' ∉ a) → ('-' ∉ b) →
        gen_vlan_string [a ++ '-' :: b] = a ++ chars " to " ++ b ++ [' '])
    ∧ (('-' ∉ v) → gen_vlan_string [v] = v ++ [' '])
    ∧ gen_vlan_string (xs ++ ys) = gen_vlan_string xs ++ gen_vlan_string ys := by
  refine ⟨?_, ?_, ?_⟩
  · intro ha hb
    have hm : '-' ∈ a ++ '-' :: b := by simp
    simp [gen_vlan_string, vlan_piece, hm, pyReplaceDash_append,
      pyReplaceDash_no_dash a ha, pyReplaceDash_no_dash b hb, pyReplaceDash,
      List.append_assoc]
  · intro hv
    simp [gen_vlan_string, vlan_piece, hv]
  · unfold gen_vlan_string
    rw [List.foldl_append]
    exact gen_vlan_string_acc ys _

/-- Witness for C6 at the spec's own example `10-20` and a singleton `30`. -/
theorem gen_vlan_string_ranges_witness :
    gen_vlan_string [chars "10-20"] = chars "10 to 20 "
    ∧ gen_vlan_string [chars "30"] = chars "30 " := by
  have h := gen_vlan_string_ranges (chars "10") (chars "20") (chars "30") [] []
  exact ⟨h.1 (by decide) (by decide), h.2.1 (by decide)⟩

/-- C7: `set_vlan` emits, for each port, the whole `_unset_vlan` sequence
first (for the port itself between the unset blocks of the ports before and
after it), then the per-port set block; for a trunk port that block is the
interface selection, the trunk link-type command, the trunk allow-pass
command carrying the computed vlan string, a commit, and the interface exit
`q`; `unset_vlan` on an access (non-trunk) port emits
`undo port default vlan` immediately followed by `commit` as the last
configuration commands of its per-port block, before the interface exit `q`;
the order is exactly the emission order, never reordered. -/
theorem vlan_command_sequence_order (p : Port) :
    (∀ pre post : List Port,
        set_vlan_cmds (pre ++ p :: post)
          = unset_vlan_body pre ++ unset_port_cmds p ++ unset_vlan_body post
            ++ (pre.map set_port_cmds).flatten ++ set_port_cmds p
            ++ (post.map set_port_cmds).flatten ++ [chars "q"])
    ∧ (p.set_link_type = chars "trunk" →
        set_port_cmds p = [interface_cmd p.port_name, chars "port link-type trunk",
          chars "port trunk allow-pass vlan " ++ gen_vlan_string p.vlan_id,
          chars "commit", chars "q"])
    ∧ (p.current_link_type ≠ chars "trunk" →
        unset_port_cmds p = [interface_cmd p.port_name, chars "undo port link-type",
          chars "undo port default vlan", chars "commit", chars "q"])
    ∧ (∀ pre post : List Port,
        unset_vlan_cmds (pre ++ p :: post)
          = unset_vlan_body pre ++ unset_port_cmds p ++ unset_vlan_body post
            ++ [chars "q"]) := by
  refine ⟨?_, ?_, ?_, ?_⟩
  · intro pre post
    simp [set_vlan_cmds, unset_vlan_body, List.append_assoc]
  · intro h
    simp [set_port_cmds, h]
  · intro h
    simp [unset_port_cmds, h]
  · intro pre post
    simp [unset_vlan_cmds, unset_vlan_body, List.append_assoc]

/-- Witness for C7 at a port whose requested link type is trunk and whose
current link type is access. -/
theorem vlan_command_sequence_order_witness :
    set_port_cmds ⟨chars "10GE1/0/1", chars "trunk", chars "access", [chars "10-20"]⟩
      = [interface_cmd (chars "10GE1/0/1"), chars "port link-type trunk",
         chars "port trunk allow-pass vlan " ++ gen_vlan_string [chars "10-20"],
         chars "commit", chars "q"]
    ∧ unset_port_cmds ⟨chars "10GE1/0/1", chars "trunk", chars "access", [chars "10-20"]⟩
      = [interface_cmd (chars "10GE1/0/1"), chars "undo port link-type",
         chars "undo port default vlan", chars "commit", chars "q"] := by
  have h := vlan_command_sequence_order
    ⟨chars "10GE1/0/1", chars "trunk", chars "access", [chars "10-20"]⟩
  exact ⟨h.2.1 (by decide), h.2.2.1 (by decide)⟩

/-- Python split never yields the empty list of pieces. -/
lemma pySplitChar_ne_nil (sep : Char) (s : List Char) : pySplitChar sep s ≠ [] := by
  cases s with
  | nil => simp [pySplitChar]
  | cons c rest =>
    rcases h : pySplitChar sep rest with _ | ⟨g, gs⟩
    · simp [pySplitChar, h]
    · by_cases hc : c = sep <;> simp [pySplitChar, h, hc]

/-- Splitting a separator-free string yields the one-piece list. -/
lemma pySplitChar_no_sep (sep : Char) (s : List Char) (h : sep ∉ s) :
    pySplitChar sep s = [s] := by
  induction s with
  | nil => rfl
  | cons c rest ih =>
    simp only [List.mem_cons, not_or] at h
    have hc : c ≠ sep := fun e => h.1 e.symm
    simp [pySplitChar, ih h.2, hc]

/-- Splitting peels off a leading separator-free piece. -/
lemma pySplitChar_sep_append (sep : Char) (x s : List Char) (h : sep ∉ x) :
    pySplitChar sep (x ++ sep :: s) = x :: pySplitChar sep s := by
  induction x with
  | nil =>
    rcases hs : pySplitChar sep s with _ | ⟨g, gs⟩
    · exact absurd hs (pySplitChar_ne_nil sep s)
    · simp [pySplitChar, hs]
  | cons c rest ih =>
    simp only [List.mem_cons, not_or] at h
    have hc : c ≠ sep := fun e => h.1 e.symm
    simp [pySplitChar, ih h.2, hc]

/-- Splitting on the separator inverts joining with it, for a non-empty list
of separator-free lines. -/
lemma pySplitChar_pyJoin (sep : Char) :
    ∀ lines : List (List Char), lines ≠ [] → (∀ l ∈ lines, sep ∉ l) →
      pySplitChar sep (pyJoin [sep] lines) = lines := by
  intro lines
  induction lines with
  | nil => intro hne _; exact absurd rfl hne
  | cons x rest ih =>
    intro _ h
    cases rest with
    | nil => exact pySplitChar_no_sep sep x (h x (by simp))
    | cons y rest2 =>
      have hj : pyJoin [sep] (x :: y :: rest2) = x ++ sep :: pyJoin [sep] (y :: rest2) := by
        simp [pyJoin]
      rw [hj, pySplitChar_sep_append sep x _ (h x (by simp)),
        ih (by simp) (fun l hl => h l (List.mem_cons_of_mem x hl))]

/-- A hexadecimal digit is never the hyphen. -/
lemma hexDigit_ne_dash (c : Char) (h : hexDigit c = true) : c ≠ '-' := by
  intro e
  rw [e] at h
  exact absurd h (by decide)

/-- A line with fewer than three whitespace-separated tokens makes the
parsing loop raise IndexError. -/
lemma parseLine_short (line : List Char) (h : (pyTokens line).length < 3) :
    parseLine line = .error PyExc.indexError := by
  rcases hts : pyTokens line with _ | ⟨a, _ | ⟨b, _ | ⟨c, rest⟩⟩⟩
  · simp [parseLine, pyIndex, hts]
  · simp [parseLine, pyIndex, hts]
  · simp [parseLine, pyIndex, hts]
  · rw [hts] at h
    simp at h
    omega

/-- The parsing loop propagates the first line's IndexError past any prefix
of well-formed lines; no line is silently skipped. -/
lemma parse_lines_first_error (good rest : List (List Char)) (bad : List Char)
    (hg : ∀ l ∈ good, ∃ r, parseLine l = .ok r)
    (hb : parseLine bad = .error PyExc.indexError) :
    parse_lines (good ++ bad :: rest) = .error PyExc.indexError := by
  induction good with
  | nil => simp [parse_lines, hb]
  | cons g gs ih =>
    obtain ⟨r, hr⟩ := hg g (by simp)
    have htail := ih (fun l hl => hg l (List.mem_cons_of_mem g hl))
    simp [parse_lines, hr, htail]

/-- C5: a hyphen-grouped MAC token of three 4-hex-digit blocks is regrouped
into the canonical colon-separated 2-hex-digit form, and a parsed data line
yields the relation whose mac comes from the first whitespace-separated
field and whose port is the third. -/
theorem relation_mac_port_parse
    (c1 c2 c3 c4 c5 c6 c7 c8 c9 c10 c11 c12 : Char) (line : List Char) :
    ((∀ c ∈ [c1, c2, c3, c4, c5, c6, c7, c8, c9, c10, c11, c12], hexDigit c = true) →
        macOfToken [c1, c2, c3, c4, '-', c5, c6, c7, c8, '-', c9, c10, c11, c12]
          = [c1, c2, ':', c3, c4, ':', c5, c6, ':', c7, c8, ':', c9, c10, ':', c11, c12])
    ∧ (3 ≤ (pyTokens line).length →
        parseLine line
          = .ok ⟨macOfToken ((pyTokens line).getD 0 []), (pyTokens line).getD 2 []⟩) := by
  constructor
  · intro h
    have key : ∀ c ∈ [c1, c2, c3, c4, c5, c6, c7, c8, c9, c10, c11, c12], c ≠ '-' :=
      fun c hc => hexDigit_ne_dash c (h c hc)
    have d1 : ('-' : Char) ∉ ([c1, c2, c3, c4] : List Char) := by
      simp only [List.mem_cons, List.not_mem_nil, or_false, not_or]
      exact ⟨Ne.symm (key c1 (by simp)), Ne.symm (key c2 (by simp)),
        Ne.symm (key c3 (by simp)), Ne.symm (key c4 (by simp))⟩
    have d2 : ('-' : Char) ∉ ([c5, c6, c7, c8] : List Char) := by
      simp only [List.mem_cons, List.not_mem_nil, or_false, not_or]
      exact ⟨Ne.symm (key c5 (by simp)), Ne.symm (key c6 (by simp)),
        Ne.symm (key c7 (by simp)), Ne.symm (key c8 (by simp))⟩
    have d3 : ('-' : Char) ∉ ([c9, c10, c11, c12] : List Char) := by
      simp only [List.mem_cons, List.not_mem_nil, or_false, not_or]
      exact ⟨Ne.symm (key c9 (by simp)), Ne.symm (key c10 (by simp)),
        Ne.symm (key c11 (by simp)), Ne.symm (key c12 (by simp))⟩
    have e0 : ([c1, c2, c3, c4, '-', c5, c6, c7, c8, '-', c9, c10, c11, c12] : List Char)
        = [c1, c2, c3, c4] ++ '-' :: ([c5, c6, c7, c8] ++ '-' :: [c9, c10, c11, c12]) := rfl
    unfold macOfToken
    rw [e0, pySplitChar_sep_append _ _ _ d1, pySplitChar_sep_append _ _ _ d2,
      pySplitChar_no_sep _ _ d3]
    rfl
  · intro h
    rcases hts : pyTokens line with _ | ⟨a, _ | ⟨b, _ | ⟨c, rest⟩⟩⟩
    · rw [hts] at h; simp at h
    · rw [hts] at h; simp at h
    · rw [hts] at h; simp at h
    · simp [parseLine, pyIndex, hts]

/-- Witness for C5 at the spec's own example token and a three-field line. -/
theorem relation_mac_port_parse_witness :
    macOfToken (chars "0011-2233-4455") = chars "00:11:22:33:44:55"
    ∧ parseLine (chars "0011-2233-4455 100 GE1/0/1")
        = .ok ⟨macOfToken (chars "0011-2233-4455"), chars "GE1/0/1"⟩ := by
  have h := relation_mac_port_parse '0' '0' '1' '1' '2' '2' '3' '3' '4' '4' '5' '5'
      (chars "0011-2233-4455 100 GE1/0/1")
  exact ⟨h.1 (by decide), h.2 (by decide)⟩

/-- C9 counterexample: a data line whose first token has no hyphen grouping
but which has three whitespace-separated tokens does NOT raise an index
error; Python slicing silently builds a malformed mac string instead. -/
theorem malformed_mac_token_not_index_error :
    parseLine (chars "xyz 100 GE0/0/1") = .ok ⟨chars "xy:z", chars "GE0/0/1"⟩
    ∧ parseLine (chars "xyz 100 GE0/0/1") ≠ .error PyExc.indexError := by
  refine ⟨rfl, ?_⟩
  intro h
  rw [show parseLine (chars "xyz 100 GE0/0/1")
      = .ok ⟨chars "xy:z", chars "GE0/0/1"⟩ from rfl] at h
  exact Except.noConfusion h

/-- C9 as amended: only the lines after the first 7 and before the last 2 of
the newline-split text are parsed; a parsed line with fewer than three
whitespace-separated tokens raises an unhandled IndexError, which propagates
past any well-formed prefix instead of being mapped to a defined error kind
or skipped; (a malformed first token alone, with three tokens present, does
not raise — see the counterexample). -/
theorem relation_parse_slice_and_short_lines :
    (∀ lines : List (List Char), lines ≠ [] → (∀ l ∈ lines, '\n' ∉ l) →
        get_relations_parse (pyJoin ['\n'] lines) = parse_lines (pySlice7m2 lines))
    ∧ (∀ line : List Char, (pyTokens line).length < 3 →
        parseLine line = .error PyExc.indexError)
    ∧ (∀ (good rest : List (List Char)) (bad : List Char),
        (∀ l ∈ good, ∃ r, parseLine l = .ok r) → (pyTokens bad).length < 3 →
        parse_lines (good ++ bad :: rest) = .error PyExc.indexError) := by
  refine ⟨?_, parseLine_short, ?_⟩
  · intro lines hne h
    unfold get_relations_parse
    rw [pySplitChar_pyJoin '\n' lines hne h]
  · intro good rest bad hg hb
    exact parse_lines_first_error good rest bad hg (parseLine_short bad hb)

/-- Witness for the amended C9: a ten-line response (7 header lines, one data
line, 2 trailer lines), a two-token line, and an empty bad line behind an
empty prefix. -/
theorem relation_parse_slice_and_short_lines_witness :
    get_relations_parse (pyJoin ['\n']
        [chars "h1", chars "h2", chars "h3", chars "h4", chars "h5", chars "h6",
         chars "h7", chars "0011-2233-4455 100 GE1/0/1", chars "t1", chars "t2"])
      = parse_lines (pySlice7m2
        [chars "h1", chars "h2", chars "h3", chars "h4", chars "h5", chars "h6",
         chars "h7", chars "0011-2233-4455 100 GE1/0/1", chars "t1", chars "t2"])
    ∧ parseLine (chars "GE1/0/1 extra") = .error PyExc.indexError
    ∧ parse_lines ([] ++ [] :: []) = .error PyExc.indexError :=
  ⟨relation_parse_slice_and_short_lines.1 _ (by decide) (by decide),
   relation_parse_slice_and_short_lines.2.1 _ (by decide),
   relation_parse_slice_and_short_lines.2.2 [] [] [] (by simp) (by decide)⟩

/-- C10: the outbound rate-limit command of `set_limit` and of
`init_all_config` renders `cir = bandwidth * 1024` kbps and
`cbs = min(524288, 2 * cir)` kbytes, the cbs value never exceeds 524288 for
any integer bandwidth, and that command is emitted for every outbound port
of every limit entry and in every per-port init block. -/
theorem rate_limit_cir_cbs_bound (bw : Int) (infos : List LimitInfo) (info : LimitInfo)
    (port tname vstr pname : List Char) :
    qos_lr_cmd bw = chars "qos lr cir " ++ (toString (bw * 1024)).data ++ chars " kbps cbs "
        ++ (toString (min 524288 (2 * (bw * 1024)))).data ++ chars " kbytes outbound"
    ∧ min 524288 (2 * (bw * 1024)) ≤ (524288 : Int)
    ∧ (info ∈ infos → port ∈ info.outbound_ports →
        qos_lr_cmd info.bandwidth ∈ set_limit_cmds infos)
    ∧ qos_lr_cmd bw ∈ init_port_cmds tname bw vstr pname := by
  refine ⟨?_, min_le_left _ _, ?_, ?_⟩
  · rw [show (2 * (bw * 1024) : Int) = bw * 1024 * 2 from by ring]
    rfl
  · intro hinfo hport
    unfold set_limit_cmds set_limit_outbound_cmds
    refine List.mem_append.mpr (Or.inl (List.mem_append.mpr (Or.inr ?_)))
    refine List.mem_flatten.mpr ⟨_, List.mem_map_of_mem _ hinfo, ?_⟩
    refine List.mem_flatten.mpr ⟨_, List.mem_map_of_mem _ hport, ?_⟩
    simp
  · simp [init_port_cmds]

/-- Witness for C10 at bandwidth 2 with one limit entry and one init block. -/
theorem rate_limit_cir_cbs_bound_witness :
    qos_lr_cmd 2 ∈ set_limit_cmds [⟨chars "tpl-2", chars "GE1/0/1", [chars "GE1/0/2"], 2⟩]
    ∧ qos_lr_cmd 2 ∈ init_port_cmds (chars "tpl-2") 2 (chars "10 ") (chars "GE1/0/2") := by
  have h := rate_limit_cir_cbs_bound 2
      [⟨chars "tpl-2", chars "GE1/0/1", [chars "GE1/0/2"], 2⟩]
      ⟨chars "tpl-2", chars "GE1/0/1", [chars "GE1/0/2"], 2⟩ (chars "GE1/0/2")
      (chars "tpl-2") (chars "10 ") (chars "GE1/0/2")
  exact ⟨h.2.2.1 (by simp) (by simp), h.2.2.2⟩
